import Mathlib

/-!
# Verification of the organization provisioning handler

Shallow embedding of `src/crates/http/src/management/organization.rs`
(`handle_manage_organization` on `Server`).  The handler creates a tenant,
a domain and an admin account in a single administrative request, against
a directory store, invalidating principal caches after each write.

External collaborators are modelled at their interface boundary:
* the JSON deserializer (`serde_json::from_slice`) is a parameter
  `parse : List Nat → Except String OrganizationProvisionRequest`;
* the directory store is an oracle `Nat → Except Err CreationResult`
  giving the outcome of the k-th `create_principal` call, together with a
  `World` state that records the calls made, the committed records and the
  full event trace (creations and cache invalidations, in order).
-/

namespace RMail

/-- The principal type tag (`directory::Type`); only the variants used by
the provisioning handler are listed. -/
inductive Typ where
  | Individual
  | Tenant
  | Domain
deriving DecidableEq, Repr

/-- Field identifiers of a principal record (`PrincipalField`); only the
fields used by the provisioning handler are listed. -/
inductive PrincipalField where
  | Name
  | Description
  | BrandName
  | BrandLogoUrl
  | BrandTheme
  | Secrets
  | Emails
  | Roles
deriving DecidableEq, Repr

/-- A tagged principal field value (`PrincipalValue`): a single string or a
list of strings. -/
inductive PrincipalValue where
  | string : String → PrincipalValue
  | stringList : List String → PrincipalValue
deriving DecidableEq, Repr

/-- A principal record under construction (`PrincipalSet`): a type tag plus
an ordered field map, modelled as an association list. -/
structure PrincipalSet where
  typ : Typ
  fields : List (PrincipalField × PrincipalValue)
deriving DecidableEq, Repr

/-- `PrincipalSet::default()`: empty field map; the type tag defaults to
`Individual` and is always overwritten by the handler before use. -/
def PrincipalSet.default : PrincipalSet :=
  { typ := Typ.Individual, fields := [] }

/-- Ordered-map insertion on the field list (`VecMap::insert`): replace the
value in place when the key is present, append otherwise. -/
def insertField (fs : List (PrincipalField × PrincipalValue))
    (k : PrincipalField) (v : PrincipalValue) :
    List (PrincipalField × PrincipalValue) :=
  if fs.any (fun kv => kv.1 = k) then
    fs.map (fun kv => if kv.1 = k then (k, v) else kv)
  else
    fs ++ [(k, v)]

/-- Insertion on a `PrincipalSet` (`principal.fields.insert(k, v)`). -/
def PrincipalSet.insert (p : PrincipalSet) (k : PrincipalField)
    (v : PrincipalValue) : PrincipalSet :=
  { p with fields := insertField p.fields k v }

/-- The capabilities checked by the handler (`directory::Permission`); only
the three used here are listed. -/
inductive Permission where
  | TenantCreate
  | DomainCreate
  | IndividualCreate
deriving DecidableEq, Repr

/-- The caller's optional tenant binding (`access_token.tenant`). -/
structure TenantInfo where
  id : Nat
deriving DecidableEq, Repr

/-- The caller's authorization context (`AccessToken`): the permission set
and the optional bound tenant. -/
structure AccessToken where
  permissions : List Permission
  tenant : Option TenantInfo
deriving DecidableEq, Repr

/-- Result of a successful `create_principal` store call: the assigned id
and the set of principal ids whose cached views are now stale. -/
structure CreationResult where
  id : Nat
  changed_principals : List Nat
deriving DecidableEq, Repr

/-- The error taxonomy surfaced by the handler: permission denial, a
malformed body, a named missing field, an opaque store-defined error, and
the unmatched-route error. -/
inductive Err where
  | permissionDenied : Permission → Err
  | badParameters : String → Err
  | missingField : String → Err
  | storeError : String → Err
  | notFound : Err
deriving DecidableEq, Repr

/-- `access_token.assert_has_permission(p)`: succeeds when the caller's
permission set holds `p`, otherwise signals `PermissionDenied(p)`. -/
def assert_has_permission (t : AccessToken) (p : Permission) :
    Except Err Unit :=
  if p ∈ t.permissions then Except.ok () else
    Except.error (Err.permissionDenied p)

/-- The deserialized provisioning request body
(`OrganizationProvisionRequest`). -/
structure OrganizationProvisionRequest where
  tenant_name : String
  domain : String
  admin_name : String
  admin_password : String
  admin_email : String
  brand_name : Option String
  brand_logo_url : Option String
  brand_theme : Option String
  description : Option String
deriving DecidableEq, Repr

/-- HTTP method of the incoming request; only `POST` is matched. -/
inductive Method where
  | POST
  | GET
  | PUT
  | DELETE
deriving DecidableEq, Repr

/-- An observable interaction with the outside world: a directory-store
creation call (record, parent id, permission set passed for the store-side
re-check) or a cache invalidation call (changed-principal ids). -/
inductive Event where
  | create : PrincipalSet → Option Nat → Option (List Permission) → Event
  | invalidate : List Nat → Event
deriving DecidableEq, Repr

/-- A durably persisted principal in the directory store: the record, the
parent it was created under, and its assigned id. -/
structure Committed where
  record : PrincipalSet
  parent : Option Nat
  id : Nat
deriving DecidableEq, Repr

/-- The observable state threaded through the handler: how many store
creation calls happened, which creations committed durably, and the full
ordered trace of outbound calls. -/
structure World where
  calls : Nat
  committed : List Committed
  trace : List Event
deriving DecidableEq, Repr

/-- The initial world: no calls made, nothing committed, empty trace. -/
def World.init : World :=
  { calls := 0, committed := [], trace := [] }

/-- `self.core.storage.data.create_principal(record, parent, perms)`:
consults the store oracle for the outcome of this (k-th) call, records the
call in the trace, and on success appends the new principal to the durable
store; a failed call commits nothing and is never compensated. -/
def create_principal (oracle : Nat → Except Err CreationResult) (w : World)
    (record : PrincipalSet) (parent : Option Nat)
    (perms : Option (List Permission)) :
    Except Err CreationResult × World :=
  let r := oracle w.calls
  (r,
    { calls := w.calls + 1,
      trace := w.trace ++ [Event.create record parent perms],
      committed :=
        match r with
        | Except.ok res => w.committed ++ [⟨record, parent, res.id⟩]
        | Except.error _ => w.committed })

/-- `self.invalidate_principal_caches(ids)`: records the cache invalidation
in the trace; best-effort, it has no error path. -/
def invalidate_principal_caches (w : World) (ids : List Nat) : World :=
  { w with trace := w.trace ++ [Event.invalidate ids] }

/-- A minimal JSON value, enough to state the shape of the success
response built by `json!`. -/
inductive Json where
  | num : Nat → Json
  | str : String → Json
  | obj : List (String × Json) → Json

/-- Builds the tenant record (step 1): type `Tenant`, `Name` from the
request, then the optional description and branding fields when present. -/
def buildTenant (request : OrganizationProvisionRequest) : PrincipalSet :=
  let tenant := { PrincipalSet.default with typ := Typ.Tenant }
  let tenant := tenant.insert PrincipalField.Name
    (PrincipalValue.string request.tenant_name)
  let tenant :=
    match request.description with
    | some description =>
        tenant.insert PrincipalField.Description
          (PrincipalValue.string description)
    | none => tenant
  let tenant :=
    match request.brand_name with
    | some brand_name =>
        tenant.insert PrincipalField.BrandName
          (PrincipalValue.string brand_name)
    | none => tenant
  let tenant :=
    match request.brand_logo_url with
    | some brand_logo_url =>
        tenant.insert PrincipalField.BrandLogoUrl
          (PrincipalValue.string brand_logo_url)
    | none => tenant
  match request.brand_theme with
  | some brand_theme =>
      tenant.insert PrincipalField.BrandTheme
        (PrincipalValue.string brand_theme)
  | none => tenant

/-- Builds the domain record (step 2): type `Domain`, `Name` from the
request; nothing else. -/
def buildDomain (request : OrganizationProvisionRequest) : PrincipalSet :=
  let domain := { PrincipalSet.default with typ := Typ.Domain }
  domain.insert PrincipalField.Name (PrincipalValue.string request.domain)

/-- Builds the admin record (step 3): type `Individual`, with the admin
name, the password as the single secret, the email as the single email,
and the fixed `tenant-admin` role. -/
def buildAdmin (request : OrganizationProvisionRequest) : PrincipalSet :=
  let admin := { PrincipalSet.default with typ := Typ.Individual }
  let admin := admin.insert PrincipalField.Name
    (PrincipalValue.string request.admin_name)
  let admin := admin.insert PrincipalField.Secrets
    (PrincipalValue.stringList [request.admin_password])
  let admin := admin.insert PrincipalField.Emails
    (PrincipalValue.stringList [request.admin_email])
  admin.insert PrincipalField.Roles
    (PrincipalValue.stringList ["tenant-admin"])

/-- `handle_manage_organization`: matches the `provision` route under the
`POST` method, asserts the three capabilities, deserializes and validates
the body, then creates tenant, domain and admin in order, invalidating
caches after each successful creation, and returns the three assigned
identifiers as JSON.  `parse` stands for `serde_json::from_slice`;
`oracle` gives each store call's outcome. -/
def handle_manage_organization
    (parse : List Nat → Except String OrganizationProvisionRequest)
    (oracle : Nat → Except Err CreationResult)
    (method : Method) (path : List String) (body : Option (List Nat))
    (access_token : AccessToken) (w : World) : Except Err Json × World :=
  match path[1]?, method with
  | some "provision", Method.POST =>
    -- Require TenantCreate, DomainCreate, and IndividualCreate permissions
    match assert_has_permission access_token Permission.TenantCreate with
    | Except.error e => (Except.error e, w)
    | Except.ok _ =>
    match assert_has_permission access_token Permission.DomainCreate with
    | Except.error e => (Except.error e, w)
    | Except.ok _ =>
    match assert_has_permission access_token Permission.IndividualCreate with
    | Except.error e => (Except.error e, w)
    | Except.ok _ =>
    -- Parse request body (an absent body is read as the empty byte slice)
    match parse (body.getD []) with
    | Except.error err => (Except.error (Err.badParameters err), w)
    | Except.ok request =>
    -- Validate required fields
    if request.tenant_name = "" then
      (Except.error (Err.missingField "tenantName"), w)
    else if request.domain = "" then
      (Except.error (Err.missingField "domain"), w)
    else if request.admin_name = "" then
      (Except.error (Err.missingField "adminName"), w)
    else if request.admin_password = "" then
      (Except.error (Err.missingField "adminPassword"), w)
    else if request.admin_email = "" then
      (Except.error (Err.missingField "adminEmail"), w)
    else
      let tenant_id := access_token.tenant.map (fun t => t.id)
      -- Step 1: Create the tenant
      match create_principal oracle w (buildTenant request) tenant_id
          (some access_token.permissions) with
      | (Except.error e, w) => (Except.error e, w)
      | (Except.ok tenant_result, w) =>
      let new_tenant_id := tenant_result.id
      let w := invalidate_principal_caches w tenant_result.changed_principals
      -- Step 2: Create the domain under this tenant
      match create_principal oracle w (buildDomain request)
          (some new_tenant_id) (some access_token.permissions) with
      | (Except.error e, w) => (Except.error e, w)
      | (Except.ok domain_result, w) =>
      let new_domain_id := domain_result.id
      let w := invalidate_principal_caches w domain_result.changed_principals
      -- Step 3: Create admin user under this tenant with tenant-admin role
      match create_principal oracle w (buildAdmin request)
          (some new_tenant_id) (some access_token.permissions) with
      | (Except.error e, w) => (Except.error e, w)
      | (Except.ok admin_result, w) =>
      let new_admin_id := admin_result.id
      let w := invalidate_principal_caches w admin_result.changed_principals
      (Except.ok (Json.obj [("data", Json.obj
        [("tenantId", Json.num new_tenant_id),
         ("domainId", Json.num new_domain_id),
         ("adminId", Json.num new_admin_id)])]), w)
  | _, _ => (Except.error Err.notFound, w)

/-! ## Concrete fixtures used by the witness theorems -/

/-- A fully populated valid request (the spec's scenario input). -/
def req0 : OrganizationProvisionRequest :=
  { tenant_name := "Acme", domain := "acme.test", admin_name := "Root",
    admin_password := "x", admin_email := "root@acme.test",
    brand_name := none, brand_logo_url := none, brand_theme := none,
    description := none }

/-- A request whose tenant name is empty (validation must reject it). -/
def reqEmptyTenant : OrganizationProvisionRequest :=
  { req0 with tenant_name := "" }

/-- A toy deserializer: the byte slice `[1]` decodes to `req0`; every other
slice (including the empty one, as for any JSON decoder) fails. -/
def parse0 (bs : List Nat) : Except String OrganizationProvisionRequest :=
  if bs = [1] then Except.ok req0 else Except.error "eof"

/-- A toy deserializer decoding `[1]` to the empty-tenant-name request. -/
def parse1 (bs : List Nat) : Except String OrganizationProvisionRequest :=
  if bs = [1] then Except.ok reqEmptyTenant else Except.error "eof"

/-- A store oracle that answers the k-th creation call with id `100 + k`
and reports that very id as the changed-principal set. -/
def oracle0 (k : Nat) : Except Err CreationResult :=
  Except.ok { id := 100 + k, changed_principals := [100 + k] }

/-- A store oracle whose second call (the domain creation) fails. -/
def oracleFail1 (k : Nat) : Except Err CreationResult :=
  if k = 1 then Except.error (Err.storeError "duplicate name")
  else oracle0 k

/-- A caller holding all three required capabilities, with no bound
tenant. -/
def token0 : AccessToken :=
  { permissions := [Permission.TenantCreate, Permission.DomainCreate,
      Permission.IndividualCreate],
    tenant := none }

/-- A caller lacking the tenant-creation capability. -/
def tokenNoTenantCap : AccessToken :=
  { permissions := [Permission.DomainCreate, Permission.IndividualCreate],
    tenant := none }

/-- A caller lacking the domain-creation capability (holding the other
two). -/
def tokenNoDomainCap : AccessToken :=
  { permissions := [Permission.TenantCreate, Permission.IndividualCreate],
    tenant := none }

/-! ## Claims -/

/-- **C1.**  For every valid request from a caller holding all three
capabilities, exactly three directory-store creation calls occur, in the
fixed order tenant, then domain, then admin; the tenant creation receives
as parent the caller's bound tenant id (or no parent when the caller is
unbound), and the domain and admin creations both receive the tenant's
freshly assigned id as parent.  The final trace pins the calls exactly. -/
theorem provision_three_creations_in_order
    (parse : List Nat → Except String OrganizationProvisionRequest)
    (oracle : Nat → Except Err CreationResult)
    (path : List String) (body : Option (List Nat)) (token : AccessToken)
    (request : OrganizationProvisionRequest) (r0 r1 r2 : CreationResult)
    (hpath : path[1]? = some "provision")
    (hp1 : Permission.TenantCreate ∈ token.permissions)
    (hp2 : Permission.DomainCreate ∈ token.permissions)
    (hp3 : Permission.IndividualCreate ∈ token.permissions)
    (hparse : parse (body.getD []) = Except.ok request)
    (h1 : request.tenant_name ≠ "") (h2 : request.domain ≠ "")
    (h3 : request.admin_name ≠ "") (h4 : request.admin_password ≠ "")
    (h5 : request.admin_email ≠ "")
    (ho0 : oracle 0 = Except.ok r0) (ho1 : oracle 1 = Except.ok r1)
    (ho2 : oracle 2 = Except.ok r2) :
    (handle_manage_organization parse oracle Method.POST path body token
        World.init).2.trace =
      [Event.create (buildTenant request) (token.tenant.map (fun t => t.id))
          (some token.permissions),
        Event.invalidate r0.changed_principals,
        Event.create (buildDomain request) (some r0.id)
          (some token.permissions),
        Event.invalidate r1.changed_principals,
        Event.create (buildAdmin request) (some r0.id)
          (some token.permissions),
        Event.invalidate r2.changed_principals] := by
  simp [handle_manage_organization, hpath, assert_has_permission, hp1, hp2,
    hp3, hparse, h1, h2, h3, h4, h5, create_principal,
    invalidate_principal_caches, World.init, ho0, ho1, ho2]

/-- Witness for C1 at the concrete fixtures. -/
theorem provision_three_creations_in_order_witness :
    (handle_manage_organization parse0 oracle0 Method.POST
        ["organization", "provision"] (some [1]) token0 World.init).2.trace =
      [Event.create (buildTenant req0) none (some token0.permissions),
        Event.invalidate [100],
        Event.create (buildDomain req0) (some 100) (some token0.permissions),
        Event.invalidate [101],
        Event.create (buildAdmin req0) (some 100) (some token0.permissions),
        Event.invalidate [102]] :=
  provision_three_creations_in_order parse0 oracle0
    ["organization", "provision"] (some [1]) token0 req0
    ⟨100, [100]⟩ ⟨101, [101]⟩ ⟨102, [102]⟩
    rfl (by decide) (by decide) (by decide) rfl
    (by decide) (by decide) (by decide) (by decide) (by decide)
    rfl rfl rfl

/-- **C2.**  For every request missing one of the five required fields, and
for every request from a caller lacking one of the three required
capabilities (regardless of field validity), the operation returns an
error and performs zero directory-store calls: the final world — call
count, durable store, trace — is exactly the initial one. -/
theorem provision_failure_makes_no_store_calls
    (parse : List Nat → Except String OrganizationProvisionRequest)
    (oracle : Nat → Except Err CreationResult)
    (path : List String) (body : Option (List Nat)) (token : AccessToken)
    (w : World)
    (hpath : path[1]? = some "provision")
    (h : (∃ p ∈ [Permission.TenantCreate, Permission.DomainCreate,
            Permission.IndividualCreate], p ∉ token.permissions) ∨
         (∃ request, parse (body.getD []) = Except.ok request ∧
            (request.tenant_name = "" ∨ request.domain = "" ∨
             request.admin_name = "" ∨ request.admin_password = "" ∨
             request.admin_email = ""))) :
    ∃ e, handle_manage_organization parse oracle Method.POST path body token
        w = (Except.error e, w) := by
  by_cases hp1 : Permission.TenantCreate ∈ token.permissions
  · by_cases hp2 : Permission.DomainCreate ∈ token.permissions
    · by_cases hp3 : Permission.IndividualCreate ∈ token.permissions
      · rcases h with ⟨p, hmem, hnot⟩ | ⟨request, hparse, hempty⟩
        · simp only [List.mem_cons, List.not_mem_nil, or_false] at hmem
          rcases hmem with rfl | rfl | rfl <;> exact absurd ‹_› hnot
        · simp only [handle_manage_organization, hpath, assert_has_permission,
            hp1, hp2, hp3, if_pos, hparse]
          split
          · exact ⟨_, rfl⟩
          · split
            · exact ⟨_, rfl⟩
            · split
              · exact ⟨_, rfl⟩
              · split
                · exact ⟨_, rfl⟩
                · split
                  · exact ⟨_, rfl⟩
                  · exfalso
                    rcases hempty with h | h | h | h | h <;> simp_all
      · simp [handle_manage_organization, hpath, assert_has_permission, hp1,
          hp2, hp3]
    · simp [handle_manage_organization, hpath, assert_has_permission, hp1,
        hp2]
  · simp [handle_manage_organization, hpath, assert_has_permission, hp1]

/-- Witness for C2: a caller lacking the domain-create capability gets an
error and the store state is untouched. -/
theorem provision_failure_makes_no_store_calls_witness :
    ∃ e, handle_manage_organization parse0 oracle0 Method.POST
        ["organization", "provision"] (some [1]) tokenNoDomainCap World.init =
      (Except.error e, World.init) :=
  provision_failure_makes_no_store_calls parse0 oracle0
    ["organization", "provision"] (some [1]) tokenNoDomainCap World.init rfl
    (Or.inl ⟨Permission.DomainCreate, by decide, by decide⟩)

/-- **C3.**  If a later creation step fails, no earlier committed creation
is rolled back and no later creation call is made: when the domain
creation fails, the final durable store still holds exactly the tenant,
the trace ends at the failed domain call (no admin call), and the store's
error is returned unchanged; when the admin creation fails, tenant and
domain both remain durably persisted. -/
theorem provision_no_rollback_on_later_failure
    (parse : List Nat → Except String OrganizationProvisionRequest)
    (oracle : Nat → Except Err CreationResult)
    (path : List String) (body : Option (List Nat)) (token : AccessToken)
    (request : OrganizationProvisionRequest) (r0 r1 : CreationResult)
    (e1 e2 : Err)
    (hpath : path[1]? = some "provision")
    (hp1 : Permission.TenantCreate ∈ token.permissions)
    (hp2 : Permission.DomainCreate ∈ token.permissions)
    (hp3 : Permission.IndividualCreate ∈ token.permissions)
    (hparse : parse (body.getD []) = Except.ok request)
    (h1 : request.tenant_name ≠ "") (h2 : request.domain ≠ "")
    (h3 : request.admin_name ≠ "") (h4 : request.admin_password ≠ "")
    (h5 : request.admin_email ≠ "")
    (ho0 : oracle 0 = Except.ok r0) :
    (oracle 1 = Except.error e1 →
      handle_manage_organization parse oracle Method.POST path body token
          World.init =
        (Except.error e1,
          { calls := 2,
            committed := [⟨buildTenant request,
              token.tenant.map (fun t => t.id), r0.id⟩],
            trace := [Event.create (buildTenant request)
                (token.tenant.map (fun t => t.id)) (some token.permissions),
              Event.invalidate r0.changed_principals,
              Event.create (buildDomain request) (some r0.id)
                (some token.permissions)] })) ∧
    (oracle 1 = Except.ok r1 → oracle 2 = Except.error e2 →
      handle_manage_organization parse oracle Method.POST path body token
          World.init =
        (Except.error e2,
          { calls := 3,
            committed := [⟨buildTenant request,
                token.tenant.map (fun t => t.id), r0.id⟩,
              ⟨buildDomain request, some r0.id, r1.id⟩],
            trace := [Event.create (buildTenant request)
                (token.tenant.map (fun t => t.id)) (some token.permissions),
              Event.invalidate r0.changed_principals,
              Event.create (buildDomain request) (some r0.id)
                (some token.permissions),
              Event.invalidate r1.changed_principals,
              Event.create (buildAdmin request) (some r0.id)
                (some token.permissions)] })) := by
  constructor
  · intro ho1
    simp [handle_manage_organization, hpath, assert_has_permission, hp1,
      hp2, hp3, hparse, h1, h2, h3, h4, h5, create_principal,
      invalidate_principal_caches, World.init, ho0, ho1]
  · intro ho1 ho2
    simp [handle_manage_organization, hpath, assert_has_permission, hp1,
      hp2, hp3, hparse, h1, h2, h3, h4, h5, create_principal,
      invalidate_principal_caches, World.init, ho0, ho1, ho2]

/-- Witness for C3 with a store whose domain creation fails. -/
theorem provision_no_rollback_on_later_failure_witness :
    (oracleFail1 1 = Except.error (Err.storeError "duplicate name") →
      handle_manage_organization parse0 oracleFail1 Method.POST
          ["organization", "provision"] (some [1]) token0 World.init =
        (Except.error (Err.storeError "duplicate name"),
          { calls := 2,
            committed := [⟨buildTenant req0, none, 100⟩],
            trace := [Event.create (buildTenant req0) none
                (some token0.permissions),
              Event.invalidate [100],
              Event.create (buildDomain req0) (some 100)
                (some token0.permissions)] })) ∧
    (oracleFail1 1 = Except.ok ⟨101, [101]⟩ →
      oracleFail1 2 = Except.error (Err.storeError "duplicate name") →
      handle_manage_organization parse0 oracleFail1 Method.POST
          ["organization", "provision"] (some [1]) token0 World.init =
        (Except.error (Err.storeError "duplicate name"),
          { calls := 3,
            committed := [⟨buildTenant req0, none, 100⟩,
              ⟨buildDomain req0, some 100, 101⟩],
            trace := [Event.create (buildTenant req0) none
                (some token0.permissions),
              Event.invalidate [100],
              Event.create (buildDomain req0) (some 100)
                (some token0.permissions),
              Event.invalidate [101],
              Event.create (buildAdmin req0) (some 100)
                (some token0.permissions)] })) :=
  provision_no_rollback_on_later_failure parse0 oracleFail1
    ["organization", "provision"] (some [1]) token0 req0
    ⟨100, [100]⟩ ⟨101, [101]⟩
    (Err.storeError "duplicate name") (Err.storeError "duplicate name")
    rfl (by decide) (by decide) (by decide) rfl
    (by decide) (by decide) (by decide) (by decide) (by decide) rfl

/-- **C4, counterexample.**  The claim says validation runs to completion
before any authorization step, so that a request with an empty required
field from a caller missing a capability yields the validation error.  On
the code it is the other way round: at a concrete request whose tenant
name is empty, sent by a caller lacking the tenant-create capability, the
handler returns the permission error, not the `MissingField` error. -/
theorem validation_first_counterexample :
    handle_manage_organization parse1 oracle0 Method.POST
        ["organization", "provision"] (some [1]) tokenNoTenantCap
        World.init =
      (Except.error (Err.permissionDenied Permission.TenantCreate),
        World.init) ∧
    parse1 ((some [1] : Option (List Nat)).getD []) =
      Except.ok reqEmptyTenant ∧
    reqEmptyTenant.tenant_name = "" ∧
    Err.permissionDenied Permission.TenantCreate ≠
      Err.missingField "tenantName" :=
  ⟨rfl, rfl, rfl, by decide⟩

/-- **C4, amended.**  The three capability checks run to completion before
deserialization and the required-field validation; hence for a request
that both has an empty required field (any of the five) and comes from a
caller missing a capability (any of the three), the permission error —
naming the first missing capability in gate order — is the one produced,
never the `MissingField` error. -/
theorem authorization_precedes_validation
    (parse : List Nat → Except String OrganizationProvisionRequest)
    (oracle : Nat → Except Err CreationResult)
    (path : List String) (body : Option (List Nat)) (token : AccessToken)
    (w : World) (request : OrganizationProvisionRequest)
    (hpath : path[1]? = some "provision")
    (hparse : parse (body.getD []) = Except.ok request)
    (hempty : request.tenant_name = "" ∨ request.domain = "" ∨
      request.admin_name = "" ∨ request.admin_password = "" ∨
      request.admin_email = "") :
    (Permission.TenantCreate ∉ token.permissions →
      handle_manage_organization parse oracle Method.POST path body token w
        = (Except.error (Err.permissionDenied Permission.TenantCreate),
            w)) ∧
    (Permission.TenantCreate ∈ token.permissions →
      Permission.DomainCreate ∉ token.permissions →
      handle_manage_organization parse oracle Method.POST path body token w
        = (Except.error (Err.permissionDenied Permission.DomainCreate),
            w)) ∧
    (Permission.TenantCreate ∈ token.permissions →
      Permission.DomainCreate ∈ token.permissions →
      Permission.IndividualCreate ∉ token.permissions →
      handle_manage_organization parse oracle Method.POST path body token w
        = (Except.error (Err.permissionDenied Permission.IndividualCreate),
            w)) := by
  refine ⟨?_, ?_, ?_⟩ <;> intros <;>
    simp [handle_manage_organization, hpath, assert_has_permission, *]

/-- Witness for the amended C4: a caller holding tenant-create but
lacking domain-create, sending a request whose tenant name is empty,
receives the `DomainCreate` permission error, not the validation error. -/
theorem authorization_precedes_validation_witness :
    (Permission.TenantCreate ∉ tokenNoDomainCap.permissions →
      handle_manage_organization parse1 oracle0 Method.POST
          ["organization", "provision"] (some [1]) tokenNoDomainCap
          World.init =
        (Except.error (Err.permissionDenied Permission.TenantCreate),
          World.init)) ∧
    (Permission.TenantCreate ∈ tokenNoDomainCap.permissions →
      Permission.DomainCreate ∉ tokenNoDomainCap.permissions →
      handle_manage_organization parse1 oracle0 Method.POST
          ["organization", "provision"] (some [1]) tokenNoDomainCap
          World.init =
        (Except.error (Err.permissionDenied Permission.DomainCreate),
          World.init)) ∧
    (Permission.TenantCreate ∈ tokenNoDomainCap.permissions →
      Permission.DomainCreate ∈ tokenNoDomainCap.permissions →
      Permission.IndividualCreate ∉ tokenNoDomainCap.permissions →
      handle_manage_organization parse1 oracle0 Method.POST
          ["organization", "provision"] (some [1]) tokenNoDomainCap
          World.init =
        (Except.error (Err.permissionDenied Permission.IndividualCreate),
          World.init)) :=
  authorization_precedes_validation parse1 oracle0
    ["organization", "provision"] (some [1]) tokenNoDomainCap World.init
    reqEmptyTenant rfl rfl (Or.inl rfl)

/-- **C5.**  After successful deserialization (and the capability checks,
which the code performs first), the five required fields are tested for
non-emptiness in the fixed order tenant name, domain, admin name, admin
password, admin email, and the operation fails with a `MissingField` error
naming the first empty field in that order, skipping the rest. -/
theorem validation_first_empty_field_order
    (parse : List Nat → Except String OrganizationProvisionRequest)
    (oracle : Nat → Except Err CreationResult)
    (path : List String) (body : Option (List Nat)) (token : AccessToken)
    (w : World) (request : OrganizationProvisionRequest)
    (hpath : path[1]? = some "provision")
    (hp1 : Permission.TenantCreate ∈ token.permissions)
    (hp2 : Permission.DomainCreate ∈ token.permissions)
    (hp3 : Permission.IndividualCreate ∈ token.permissions)
    (hparse : parse (body.getD []) = Except.ok request) :
    (request.tenant_name = "" →
      handle_manage_organization parse oracle Method.POST path body token w
        = (Except.error (Err.missingField "tenantName"), w)) ∧
    (request.tenant_name ≠ "" → request.domain = "" →
      handle_manage_organization parse oracle Method.POST path body token w
        = (Except.error (Err.missingField "domain"), w)) ∧
    (request.tenant_name ≠ "" → request.domain ≠ "" →
      request.admin_name = "" →
      handle_manage_organization parse oracle Method.POST path body token w
        = (Except.error (Err.missingField "adminName"), w)) ∧
    (request.tenant_name ≠ "" → request.domain ≠ "" →
      request.admin_name ≠ "" → request.admin_password = "" →
      handle_manage_organization parse oracle Method.POST path body token w
        = (Except.error (Err.missingField "adminPassword"), w)) ∧
    (request.tenant_name ≠ "" → request.domain ≠ "" →
      request.admin_name ≠ "" → request.admin_password ≠ "" →
      request.admin_email = "" →
      handle_manage_organization parse oracle Method.POST path body token w
        = (Except.error (Err.missingField "adminEmail"), w)) := by
  refine ⟨?_, ?_, ?_, ?_, ?_⟩ <;> intros <;>
    simp [handle_manage_organization, hpath, assert_has_permission, hp1,
      hp2, hp3, hparse, *]

/-- Witness for C5 at a request whose tenant name is empty. -/
theorem validation_first_empty_field_order_witness :
    (reqEmptyTenant.tenant_name = "" →
      handle_manage_organization parse1 oracle0 Method.POST
          ["organization", "provision"] (some [1]) token0 World.init =
        (Except.error (Err.missingField "tenantName"), World.init)) ∧
    (reqEmptyTenant.tenant_name ≠ "" → reqEmptyTenant.domain = "" →
      handle_manage_organization parse1 oracle0 Method.POST
          ["organization", "provision"] (some [1]) token0 World.init =
        (Except.error (Err.missingField "domain"), World.init)) ∧
    (reqEmptyTenant.tenant_name ≠ "" → reqEmptyTenant.domain ≠ "" →
      reqEmptyTenant.admin_name = "" →
      handle_manage_organization parse1 oracle0 Method.POST
          ["organization", "provision"] (some [1]) token0 World.init =
        (Except.error (Err.missingField "adminName"), World.init)) ∧
    (reqEmptyTenant.tenant_name ≠ "" → reqEmptyTenant.domain ≠ "" →
      reqEmptyTenant.admin_name ≠ "" → reqEmptyTenant.admin_password = "" →
      handle_manage_organization parse1 oracle0 Method.POST
          ["organization", "provision"] (some [1]) token0 World.init =
        (Except.error (Err.missingField "adminPassword"), World.init)) ∧
    (reqEmptyTenant.tenant_name ≠ "" → reqEmptyTenant.domain ≠ "" →
      reqEmptyTenant.admin_name ≠ "" → reqEmptyTenant.admin_password ≠ "" →
      reqEmptyTenant.admin_email = "" →
      handle_manage_organization parse1 oracle0 Method.POST
          ["organization", "provision"] (some [1]) token0 World.init =
        (Except.error (Err.missingField "adminEmail"), World.init)) :=
  validation_first_empty_field_order parse1 oracle0
    ["organization", "provision"] (some [1]) token0 World.init
    reqEmptyTenant rfl (by decide) (by decide) (by decide) rfl

/-- **C6.**  The permission gate checks create-tenant, create-domain,
create-individual in that fixed order and fails fast: a caller missing a
capability gets `PermissionDenied` naming the first missing capability in
that order, with the world untouched. -/
theorem permission_gate_order
    (parse : List Nat → Except String OrganizationProvisionRequest)
    (oracle : Nat → Except Err CreationResult)
    (path : List String) (body : Option (List Nat)) (token : AccessToken)
    (w : World)
    (hpath : path[1]? = some "provision") :
    (Permission.TenantCreate ∉ token.permissions →
      handle_manage_organization parse oracle Method.POST path body token w
        = (Except.error (Err.permissionDenied Permission.TenantCreate),
            w)) ∧
    (Permission.TenantCreate ∈ token.permissions →
      Permission.DomainCreate ∉ token.permissions →
      handle_manage_organization parse oracle Method.POST path body token w
        = (Except.error (Err.permissionDenied Permission.DomainCreate),
            w)) ∧
    (Permission.TenantCreate ∈ token.permissions →
      Permission.DomainCreate ∈ token.permissions →
      Permission.IndividualCreate ∉ token.permissions →
      handle_manage_organization parse oracle Method.POST path body token w
        = (Except.error (Err.permissionDenied Permission.IndividualCreate),
            w)) := by
  refine ⟨?_, ?_, ?_⟩ <;> intros <;>
    simp [handle_manage_organization, hpath, assert_has_permission, *]

/-- Witness for C6 at a caller lacking the domain-create capability. -/
theorem permission_gate_order_witness :
    (Permission.TenantCreate ∉ tokenNoDomainCap.permissions →
      handle_manage_organization parse0 oracle0 Method.POST
          ["organization", "provision"] (some [1]) tokenNoDomainCap
          World.init =
        (Except.error (Err.permissionDenied Permission.TenantCreate),
          World.init)) ∧
    (Permission.TenantCreate ∈ tokenNoDomainCap.permissions →
      Permission.DomainCreate ∉ tokenNoDomainCap.permissions →
      handle_manage_organization parse0 oracle0 Method.POST
          ["organization", "provision"] (some [1]) tokenNoDomainCap
          World.init =
        (Except.error (Err.permissionDenied Permission.DomainCreate),
          World.init)) ∧
    (Permission.TenantCreate ∈ tokenNoDomainCap.permissions →
      Permission.DomainCreate ∈ tokenNoDomainCap.permissions →
      Permission.IndividualCreate ∉ tokenNoDomainCap.permissions →
      handle_manage_organization parse0 oracle0 Method.POST
          ["organization", "provision"] (some [1]) tokenNoDomainCap
          World.init =
        (Except.error (Err.permissionDenied Permission.IndividualCreate),
          World.init)) :=
  permission_gate_order parse0 oracle0 ["organization", "provision"]
    (some [1]) tokenNoDomainCap World.init rfl

/-- **C7.**  Cache invalidation is invoked exactly once after each
successful creation, with exactly that creation's reported
changed-principal set, and each invalidation completes before the next
creation call begins: on full success the trace strictly interleaves the
three creations with their three invalidations, and even when the domain
creation fails the tenant invalidation already sits between the two
creation calls. -/
theorem cache_invalidation_per_creation
    (parse : List Nat → Except String OrganizationProvisionRequest)
    (oracle : Nat → Except Err CreationResult)
    (path : List String) (body : Option (List Nat)) (token : AccessToken)
    (request : OrganizationProvisionRequest) (r0 r1 r2 : CreationResult)
    (e1 : Err)
    (hpath : path[1]? = some "provision")
    (hp1 : Permission.TenantCreate ∈ token.permissions)
    (hp2 : Permission.DomainCreate ∈ token.permissions)
    (hp3 : Permission.IndividualCreate ∈ token.permissions)
    (hparse : parse (body.getD []) = Except.ok request)
    (h1 : request.tenant_name ≠ "") (h2 : request.domain ≠ "")
    (h3 : request.admin_name ≠ "") (h4 : request.admin_password ≠ "")
    (h5 : request.admin_email ≠ "")
    (ho0 : oracle 0 = Except.ok r0) :
    (oracle 1 = Except.ok r1 → oracle 2 = Except.ok r2 →
      (handle_manage_organization parse oracle Method.POST path body token
          World.init).2.trace =
        [Event.create (buildTenant request)
            (token.tenant.map (fun t => t.id)) (some token.permissions),
          Event.invalidate r0.changed_principals,
          Event.create (buildDomain request) (some r0.id)
            (some token.permissions),
          Event.invalidate r1.changed_principals,
          Event.create (buildAdmin request) (some r0.id)
            (some token.permissions),
          Event.invalidate r2.changed_principals]) ∧
    (oracle 1 = Except.error e1 →
      (handle_manage_organization parse oracle Method.POST path body token
          World.init).2.trace =
        [Event.create (buildTenant request)
            (token.tenant.map (fun t => t.id)) (some token.permissions),
          Event.invalidate r0.changed_principals,
          Event.create (buildDomain request) (some r0.id)
            (some token.permissions)]) := by
  constructor
  · intro ho1 ho2
    simp [handle_manage_organization, hpath, assert_has_permission, hp1,
      hp2, hp3, hparse, h1, h2, h3, h4, h5, create_principal,
      invalidate_principal_caches, World.init, ho0, ho1, ho2]
  · intro ho1
    simp [handle_manage_organization, hpath, assert_has_permission, hp1,
      hp2, hp3, hparse, h1, h2, h3, h4, h5, create_principal,
      invalidate_principal_caches, World.init, ho0, ho1]

/-- Witness for C7 at the all-success oracle. -/
theorem cache_invalidation_per_creation_witness :
    (oracle0 1 = Except.ok ⟨101, [101]⟩ →
      oracle0 2 = Except.ok ⟨102, [102]⟩ →
      (handle_manage_organization parse0 oracle0 Method.POST
          ["organization", "provision"] (some [1]) token0
          World.init).2.trace =
        [Event.create (buildTenant req0) none (some token0.permissions),
          Event.invalidate [100],
          Event.create (buildDomain req0) (some 100)
            (some token0.permissions),
          Event.invalidate [101],
          Event.create (buildAdmin req0) (some 100)
            (some token0.permissions),
          Event.invalidate [102]]) ∧
    (oracle0 1 = Except.error Err.notFound →
      (handle_manage_organization parse0 oracle0 Method.POST
          ["organization", "provision"] (some [1]) token0
          World.init).2.trace =
        [Event.create (buildTenant req0) none (some token0.permissions),
          Event.invalidate [100],
          Event.create (buildDomain req0) (some 100)
            (some token0.permissions)]) :=
  cache_invalidation_per_creation parse0 oracle0
    ["organization", "provision"] (some [1]) token0 req0
    ⟨100, [100]⟩ ⟨101, [101]⟩ ⟨102, [102]⟩ Err.notFound
    rfl (by decide) (by decide) (by decide) rfl
    (by decide) (by decide) (by decide) (by decide) (by decide) rfl

/-- **C8.**  On success the response is a JSON object whose `data` field
holds `tenantId`, `domainId`, `adminId`, equal to the identifiers returned
by the tenant, domain and admin store calls respectively. -/
theorem success_response_ids_match_store
    (parse : List Nat → Except String OrganizationProvisionRequest)
    (oracle : Nat → Except Err CreationResult)
    (path : List String) (body : Option (List Nat)) (token : AccessToken)
    (request : OrganizationProvisionRequest) (r0 r1 r2 : CreationResult)
    (hpath : path[1]? = some "provision")
    (hp1 : Permission.TenantCreate ∈ token.permissions)
    (hp2 : Permission.DomainCreate ∈ token.permissions)
    (hp3 : Permission.IndividualCreate ∈ token.permissions)
    (hparse : parse (body.getD []) = Except.ok request)
    (h1 : request.tenant_name ≠ "") (h2 : request.domain ≠ "")
    (h3 : request.admin_name ≠ "") (h4 : request.admin_password ≠ "")
    (h5 : request.admin_email ≠ "")
    (ho0 : oracle 0 = Except.ok r0) (ho1 : oracle 1 = Except.ok r1)
    (ho2 : oracle 2 = Except.ok r2) :
    (handle_manage_organization parse oracle Method.POST path body token
        World.init).1 =
      Except.ok (Json.obj [("data", Json.obj
        [("tenantId", Json.num r0.id),
         ("domainId", Json.num r1.id),
         ("adminId", Json.num r2.id)])]) := by
  simp [handle_manage_organization, hpath, assert_has_permission, hp1, hp2,
    hp3, hparse, h1, h2, h3, h4, h5, create_principal,
    invalidate_principal_caches, World.init, ho0, ho1, ho2]

/-- Witness for C8: the three response ids are the store-assigned 100,
101, 102. -/
theorem success_response_ids_match_store_witness :
    (handle_manage_organization parse0 oracle0 Method.POST
        ["organization", "provision"] (some [1]) token0 World.init).1 =
      Except.ok (Json.obj [("data", Json.obj
        [("tenantId", Json.num 100),
         ("domainId", Json.num 101),
         ("adminId", Json.num 102)])]) :=
  success_response_ids_match_store parse0 oracle0
    ["organization", "provision"] (some [1]) token0 req0
    ⟨100, [100]⟩ ⟨101, [101]⟩ ⟨102, [102]⟩
    rfl (by decide) (by decide) (by decide) rfl
    (by decide) (by decide) (by decide) (by decide) (by decide)
    rfl rfl rfl

/-- **C9.**  The domain record submitted to the store has type `Domain`
and exactly the single field `Name = request.domain` (no branding), and
the admin record has type `Individual` with `Name`, single-element
`Secrets` (the password), single-element `Emails` (the email) and
single-element `Roles` containing exactly the literal `tenant-admin`;
both are submitted with the tenant's assigned id as parent. -/
theorem domain_and_admin_record_contents
    (parse : List Nat → Except String OrganizationProvisionRequest)
    (oracle : Nat → Except Err CreationResult)
    (path : List String) (body : Option (List Nat)) (token : AccessToken)
    (request : OrganizationProvisionRequest) (r0 r1 r2 : CreationResult)
    (hpath : path[1]? = some "provision")
    (hp1 : Permission.TenantCreate ∈ token.permissions)
    (hp2 : Permission.DomainCreate ∈ token.permissions)
    (hp3 : Permission.IndividualCreate ∈ token.permissions)
    (hparse : parse (body.getD []) = Except.ok request)
    (h1 : request.tenant_name ≠ "") (h2 : request.domain ≠ "")
    (h3 : request.admin_name ≠ "") (h4 : request.admin_password ≠ "")
    (h5 : request.admin_email ≠ "")
    (ho0 : oracle 0 = Except.ok r0) (ho1 : oracle 1 = Except.ok r1)
    (ho2 : oracle 2 = Except.ok r2) :
    (handle_manage_organization parse oracle Method.POST path body token
        World.init).2.trace[2]? =
      some (Event.create
        { typ := Typ.Domain,
          fields := [(PrincipalField.Name,
            PrincipalValue.string request.domain)] }
        (some r0.id) (some token.permissions)) ∧
    (handle_manage_organization parse oracle Method.POST path body token
        World.init).2.trace[4]? =
      some (Event.create
        { typ := Typ.Individual,
          fields := [(PrincipalField.Name,
              PrincipalValue.string request.admin_name),
            (PrincipalField.Secrets,
              PrincipalValue.stringList [request.admin_password]),
            (PrincipalField.Emails,
              PrincipalValue.stringList [request.admin_email]),
            (PrincipalField.Roles,
              PrincipalValue.stringList ["tenant-admin"])] }
        (some r0.id) (some token.permissions)) := by
  constructor <;>
    simp [handle_manage_organization, hpath, assert_has_permission, hp1,
      hp2, hp3, hparse, h1, h2, h3, h4, h5, create_principal,
      invalidate_principal_caches, World.init, ho0, ho1, ho2, buildDomain,
      buildAdmin, PrincipalSet.insert, PrincipalSet.default, insertField]

/-- Witness for C9 at the concrete fixtures. -/
theorem domain_and_admin_record_contents_witness :
    (handle_manage_organization parse0 oracle0 Method.POST
        ["organization", "provision"] (some [1]) token0
        World.init).2.trace[2]? =
      some (Event.create
        { typ := Typ.Domain,
          fields := [(PrincipalField.Name,
            PrincipalValue.string req0.domain)] }
        (some 100) (some token0.permissions)) ∧
    (handle_manage_organization parse0 oracle0 Method.POST
        ["organization", "provision"] (some [1]) token0
        World.init).2.trace[4]? =
      some (Event.create
        { typ := Typ.Individual,
          fields := [(PrincipalField.Name,
              PrincipalValue.string req0.admin_name),
            (PrincipalField.Secrets,
              PrincipalValue.stringList [req0.admin_password]),
            (PrincipalField.Emails,
              PrincipalValue.stringList [req0.admin_email]),
            (PrincipalField.Roles,
              PrincipalValue.stringList ["tenant-admin"])] }
        (some 100) (some token0.permissions)) :=
  domain_and_admin_record_contents parse0 oracle0
    ["organization", "provision"] (some [1]) token0 req0
    ⟨100, [100]⟩ ⟨101, [101]⟩ ⟨102, [102]⟩
    rfl (by decide) (by decide) (by decide) rfl
    (by decide) (by decide) (by decide) (by decide) (by decide)
    rfl rfl rfl

/-- **C10.**  When the provisioning route is matched by a caller with all
three capabilities but the request body is absent, the body is read as the
empty byte slice; since no JSON decoder accepts empty input, the handler
returns a `BadParameters` error (it cannot panic: it is a total function)
and the world — in particular the directory store — is untouched. -/
theorem absent_body_bad_parameters
    (parse : List Nat → Except String OrganizationProvisionRequest)
    (oracle : Nat → Except Err CreationResult)
    (path : List String) (token : AccessToken) (w : World) (msg : String)
    (hpath : path[1]? = some "provision")
    (hp1 : Permission.TenantCreate ∈ token.permissions)
    (hp2 : Permission.DomainCreate ∈ token.permissions)
    (hp3 : Permission.IndividualCreate ∈ token.permissions)
    (hparse : parse [] = Except.error msg) :
    handle_manage_organization parse oracle Method.POST path none token w =
      (Except.error (Err.badParameters msg), w) := by
  simp [handle_manage_organization, hpath, assert_has_permission, hp1, hp2,
    hp3, hparse]

/-- Witness for C10 at the concrete fixtures. -/
theorem absent_body_bad_parameters_witness :
    handle_manage_organization parse0 oracle0 Method.POST
        ["organization", "provision"] none token0 World.init =
      (Except.error (Err.badParameters "eof"), World.init) :=
  absent_body_bad_parameters parse0 oracle0 ["organization", "provision"]
    token0 World.init "eof" rfl (by decide) (by decide) (by decide) rfl

end RMail
